import Mathlib

/-!
Verification development for the landscaper reconciliation engine
(pkg/landscaper). The repository snapshot contains `secrets.go` (the
Kubernetes and environment-variable secret adapters) and
`executor_test.go` (the tests of the executor). The executor source
itself (diff, integrateForcedUpdates, isOnlySecretValueDiff, isCronJob,
Create/Update/DeleteComponent) is not in the snapshot, so those
operations are modelled from the specification, constrained by the
behaviour exercised in `executor_test.go`. The secret adapters are
embedded directly from `secrets.go`.
-/

namespace Landscaper

/-- Scalar configuration values, as used in the Configuration map
(the tests use string and integer values). -/
inductive ConfigValue where
  | str : String → ConfigValue
  | int : Int → ConfigValue
deriving DecidableEq

/-- Release is the versioned reference to a packaged chart
(fields Chart and Version). -/
structure Release where
  Chart : String
  Version : String
deriving DecidableEq

/-- Configuration is a mapping from string keys to scalar values,
modelled as an association list. -/
abbrev Configuration := List (String × ConfigValue)

/-- Secrets is a slice of secret names (secrets.go line 14). -/
abbrev Secrets := List String

/-- SecretValues maps secret names to their raw values
(secrets.go line 18); byte slices are modelled as strings. -/
abbrev SecretValues := List (String × String)

/-- Component is one deployable unit: Name, Namespace, a (possibly nil)
Release reference, Configuration, declared Secrets and resolved
SecretValues. -/
structure Component where
  Name : String
  Namespace : String
  Release : Option Release
  Configuration : Configuration
  Secrets : Secrets
  SecretValues : SecretValues
deriving DecidableEq

/-- Components is a mapping from component name to Component, modelled
as a partial function. -/
abbrev Components := String → Option Component

/-- Modelled from the spec: the §3 equality rule — two Components are
equal for diffing purposes iff every field except SecretValues is
equal. -/
def eqIgnoringSecretValues (a b : Component) : Prop :=
  a.Name = b.Name ∧ a.Namespace = b.Namespace ∧ a.Release = b.Release ∧
  a.Configuration = b.Configuration ∧ a.Secrets = b.Secrets

instance (a b : Component) : Decidable (eqIgnoringSecretValues a b) := by
  unfold eqIgnoringSecretValues
  infer_instance

/-- Modelled from the spec: the Differ `diff(desired, current) ->
(create, update, delete)` (§4.1); the executor source is missing from
the snapshot, behaviour fixed by §4.1 and TestExecutorDiff. Desired-only
names go to create, current-only names to delete, names in both go to
update with the desired value when unequal per the §3 rule, and are
omitted everywhere when equal. -/
def diff (desired current : Components) :
    Components × Components × Components :=
  ( fun n => match desired n, current n with
      | some d, none => some d
      | _, _ => none
  , fun n => match desired n, current n with
      | some d, some c =>
          if eqIgnoringSecretValues d c then none else some d
      | _, _ => none
  , fun n => match desired n, current n with
      | none, some c => some c
      | _, _ => none )

/-- Modelled from the spec: `isOnlySecretValueDiff(a, b)` returns true
iff a and b are identical in every field except SecretValues and their
SecretValues actually differ (§4.1); the executor source is missing
from the snapshot, behaviour fixed by TestIsOnlySecretValueDiff. -/
def isOnlySecretValueDiff (a b : Component) : Bool :=
  decide (eqIgnoringSecretValues a b) &&
    !(decide (a.SecretValues = b.SecretValues))

/-- Modelled from the spec: the Forced-Update Integrator (§4.3) — every
name in update flagged true in needForcedUpdate is removed from update,
its current value is added to delete and its desired value (the one in
update) is added to create; everything else passes through unchanged.
The executor source is missing from the snapshot, behaviour fixed by
§4.3 and TestIntegrateForcedUpdates. -/
def integrateForcedUpdates (current create update delete : Components)
    (needForcedUpdate : String → Bool) :
    Components × Components × Components :=
  ( fun n => if (update n).isSome && needForcedUpdate n
      then update n else create n
  , fun n => if (update n).isSome && needForcedUpdate n
      then none else update n
  , fun n => if (update n).isSome && needForcedUpdate n
      then current n else delete n )

/-! Test fixtures mirroring executor_test.go. -/

/-- Configuration used by newTestComponent in executor_test.go. -/
def testConfiguration : Configuration :=
  [ ("GroupID", ConfigValue.str "hdfs-rtwind")
  , ("HdfsUrl", ConfigValue.str "hdfs://hadoop:8020")
  , ("PartitionField", ConfigValue.str "partition1")
  , ("TasksMax", ConfigValue.int 1)
  , ("Topics", ConfigValue.str "topic1,topic2")
  , ("FlushSize", ConfigValue.int 3)
  , ("FilenameOffsetZeroPadWidth", ConfigValue.int 1) ]

/-- Test component builder mirroring newTestComponent in
executor_test.go. -/
def newTestComponent (name : String) : Component :=
  { Name := name
  , Namespace := "myNameSpace"
  , Release := some { Chart := "connector-hdfs:0.1.0", Version := "1.0.0" }
  , Configuration := testConfiguration
  , Secrets := ["TestSecret1", "TestSecret2"]
  , SecretValues :=
      [("TestSecret1", "secret value 1"), ("TestSecret2", "secret value 2")] }

/-- Component cmpA of TestExecutorDiff (only Name set). -/
def cmpA : Component :=
  { Name := "cmpA", Namespace := "", Release := none
  , Configuration := [], Secrets := [], SecretValues := [] }

/-- Component cmpB of TestExecutorDiff on the current side (chart1). -/
def cmpB1 : Component :=
  { Name := "cmpB", Namespace := ""
  , Release := some { Chart := "chart1", Version := "" }
  , Configuration := [], Secrets := [], SecretValues := [] }

/-- Component cmpB of TestExecutorDiff on the desired side (chart2). -/
def cmpB2 : Component :=
  { Name := "cmpB", Namespace := ""
  , Release := some { Chart := "chart2", Version := "" }
  , Configuration := [], Secrets := [], SecretValues := [] }

/-- Component cmpC of TestExecutorDiff (present unchanged on both
sides). -/
def cmpC : Component :=
  { Name := "cmpC", Namespace := "", Release := none
  , Configuration := [], Secrets := [], SecretValues := [] }

/-- Component cmpD of TestExecutorDiff (desired only). -/
def cmpD : Component :=
  { Name := "cmpD", Namespace := "", Release := none
  , Configuration := [], Secrets := [], SecretValues := [] }

/-- The current map of TestExecutorDiff. -/
def currentTest : Components := fun n =>
  if n = "cmpA" then some cmpA
  else if n = "cmpB" then some cmpB1
  else if n = "cmpC" then some cmpC
  else none

/-- The desired map of TestExecutorDiff. -/
def desiredTest : Components := fun n =>
  if n = "cmpD" then some cmpD
  else if n = "cmpB" then some cmpB2
  else if n = "cmpC" then some cmpC
  else none

/-- C1: diff places desired-only names in create with the desired
value, current-only names in delete, names present in both with a
difference outside SecretValues in update with the desired value, and
omits names present in both that are equal per the §3 rule from all
three sets. -/
theorem diff_classifies (desired current : Components) (n : String) :
    (∀ d, desired n = some d → current n = none →
      (diff desired current).1 n = some d) ∧
    (∀ c, current n = some c → desired n = none →
      (diff desired current).2.2 n = some c) ∧
    (∀ d c, desired n = some d → current n = some c →
      ¬ eqIgnoringSecretValues d c →
      (diff desired current).2.1 n = some d) ∧
    (∀ d c, desired n = some d → current n = some c →
      eqIgnoringSecretValues d c →
      (diff desired current).1 n = none ∧
      (diff desired current).2.1 n = none ∧
      (diff desired current).2.2 n = none) := by
  refine ⟨?_, ?_, ?_, ?_⟩
  · intro d hd hc
    simp [diff, hd, hc]
  · intro c hc hd
    simp [diff, hd, hc]
  · intro d c hd hc hne
    simp [diff, hd, hc, hne]
  · intro d c hd hc heq
    simp [diff, hd, hc, heq]

/-- Witness for diff_classifies on the TestExecutorDiff data: cmpD is
created, cmpA is deleted, cmpB is updated with the desired value, and
cmpC appears nowhere. -/
theorem diff_classifies_witness :
    (diff desiredTest currentTest).1 "cmpD" = some cmpD ∧
    (diff desiredTest currentTest).2.2 "cmpA" = some cmpA ∧
    (diff desiredTest currentTest).2.1 "cmpB" = some cmpB2 ∧
    ((diff desiredTest currentTest).1 "cmpC" = none ∧
     (diff desiredTest currentTest).2.1 "cmpC" = none ∧
     (diff desiredTest currentTest).2.2 "cmpC" = none) :=
  ⟨(diff_classifies desiredTest currentTest "cmpD").1 cmpD
      (by decide) (by decide),
   (diff_classifies desiredTest currentTest "cmpA").2.1 cmpA
      (by decide) (by decide),
   (diff_classifies desiredTest currentTest "cmpB").2.2.1 cmpB2 cmpB1
      (by decide) (by decide) (by decide),
   (diff_classifies desiredTest currentTest "cmpC").2.2.2 cmpC cmpC
      (by decide) (by decide) (by decide)⟩

/-- C3: isOnlySecretValueDiff is true iff the two components agree on
every field except SecretValues and their SecretValues differ; on
identical components it is false, and it is false whenever any
non-SecretValues field differs. -/
theorem isOnlySecretValueDiff_spec (a b : Component) :
    (isOnlySecretValueDiff a b = true ↔
      eqIgnoringSecretValues a b ∧ a.SecretValues ≠ b.SecretValues) ∧
    isOnlySecretValueDiff a a = false ∧
    (¬ eqIgnoringSecretValues a b → isOnlySecretValueDiff a b = false) := by
  refine ⟨?_, ?_, ?_⟩
  · simp [isOnlySecretValueDiff]
  · simp [isOnlySecretValueDiff]
  · intro h
    simp [isOnlySecretValueDiff, h]

/-- Component a of TestIsOnlySecretValueDiff. -/
def cmpSVa : Component := newTestComponent "a"

/-- Component b of TestIsOnlySecretValueDiff: name changed. -/
def cmpSVb : Component := { newTestComponent "a" with Name := "aX" }

/-- Component c of TestIsOnlySecretValueDiff: one extra secret value. -/
def cmpSVc : Component :=
  { newTestComponent "a" with
      SecretValues := (newTestComponent "a").SecretValues ++ [("x", "y")] }

/-- Witness for isOnlySecretValueDiff_spec on the
TestIsOnlySecretValueDiff data. -/
theorem isOnlySecretValueDiff_spec_witness :
    isOnlySecretValueDiff cmpSVa cmpSVa = false ∧
    isOnlySecretValueDiff cmpSVa cmpSVb = false ∧
    isOnlySecretValueDiff cmpSVa cmpSVc = true :=
  ⟨(isOnlySecretValueDiff_spec cmpSVa cmpSVa).2.1,
   (isOnlySecretValueDiff_spec cmpSVa cmpSVb).2.2 (by decide),
   ((isOnlySecretValueDiff_spec cmpSVa cmpSVc).1).mpr
      ⟨by decide, by decide⟩⟩

/-- C2: integrateForcedUpdates removes every flagged updated name from
update, adds its current value to delete and its desired value to
create, and leaves every unflagged entry of create, update and delete
unchanged. -/
theorem integrateForcedUpdates_spec
    (current create update delete : Components)
    (needForcedUpdate : String → Bool) (n : String) :
    (∀ u cc, update n = some u → needForcedUpdate n = true →
      current n = some cc →
      (integrateForcedUpdates current create update delete
        needForcedUpdate).1 n = some u ∧
      (integrateForcedUpdates current create update delete
        needForcedUpdate).2.1 n = none ∧
      (integrateForcedUpdates current create update delete
        needForcedUpdate).2.2 n = some cc) ∧
    ((update n = none ∨ needForcedUpdate n = false) →
      (integrateForcedUpdates current create update delete
        needForcedUpdate).1 n = create n ∧
      (integrateForcedUpdates current create update delete
        needForcedUpdate).2.1 n = update n ∧
      (integrateForcedUpdates current create update delete
        needForcedUpdate).2.2 n = delete n) := by
  constructor
  · intro u cc hu hf hc
    simp [integrateForcedUpdates, hu, hf, hc]
  · intro h
    rcases h with h | h
    · simp [integrateForcedUpdates, h]
    · simp [integrateForcedUpdates, h]

/-- The current map of TestIntegrateForcedUpdates ({U, F, D}). -/
def currentIFU : Components := fun n =>
  if n = "U" then some (newTestComponent "U")
  else if n = "F" then some (newTestComponent "F")
  else if n = "D" then some (newTestComponent "D")
  else none

/-- The create map of TestIntegrateForcedUpdates ({C}). -/
def createIFU : Components := fun n =>
  if n = "C" then some (newTestComponent "C") else none

/-- The update map of TestIntegrateForcedUpdates ({U, F}). -/
def updateIFU : Components := fun n =>
  if n = "U" then some (newTestComponent "U")
  else if n = "F" then some (newTestComponent "F")
  else none

/-- The delete map of TestIntegrateForcedUpdates ({D}). -/
def deleteIFU : Components := fun n =>
  if n = "D" then some (newTestComponent "D") else none

/-- The needForcedUpdate predicate of TestIntegrateForcedUpdates
({F: true}). -/
def needIFU : String → Bool := fun n => decide (n = "F")

/-- Witness for integrateForcedUpdates_spec on the
TestIntegrateForcedUpdates data: F moves from update to create and
delete, U passes through unchanged. -/
theorem integrateForcedUpdates_spec_witness :
    ((integrateForcedUpdates currentIFU createIFU updateIFU deleteIFU
        needIFU).1 "F" = some (newTestComponent "F") ∧
     (integrateForcedUpdates currentIFU createIFU updateIFU deleteIFU
        needIFU).2.1 "F" = none ∧
     (integrateForcedUpdates currentIFU createIFU updateIFU deleteIFU
        needIFU).2.2 "F" = some (newTestComponent "F")) ∧
    ((integrateForcedUpdates currentIFU createIFU updateIFU deleteIFU
        needIFU).1 "U" = createIFU "U" ∧
     (integrateForcedUpdates currentIFU createIFU updateIFU deleteIFU
        needIFU).2.1 "U" = updateIFU "U" ∧
     (integrateForcedUpdates currentIFU createIFU updateIFU deleteIFU
        needIFU).2.2 "U" = deleteIFU "U") :=
  ⟨(integrateForcedUpdates_spec currentIFU createIFU updateIFU deleteIFU
      needIFU "F").1 (newTestComponent "F") (newTestComponent "F")
      (by decide) (by decide) (by decide),
   (integrateForcedUpdates_spec currentIFU createIFU updateIFU deleteIFU
      needIFU "U").2 (Or.inr (by decide))⟩

/-! Cron-like detector (§4.2). -/

/-- seqStarts xs pat is true iff pat is an initial segment of xs. -/
def seqStarts : List Char → List Char → Bool
  | _, [] => true
  | [], _ :: _ => false
  | c :: cs, p :: ps => if c = p then seqStarts cs ps else false

/-- containsSeq pat xs is true iff pat occurs contiguously inside xs
(the textual substring match used on template bodies). -/
def containsSeq (pat : List Char) : List Char → Bool
  | [] => pat.isEmpty
  | c :: cs => seqStarts (c :: cs) pat || containsSeq pat cs

theorem seqStarts_iff (xs pat : List Char) :
    seqStarts xs pat = true ↔ ∃ r, xs = pat ++ r := by
  induction pat generalizing xs with
  | nil => simp [seqStarts]
  | cons p ps ih =>
    cases xs with
    | nil =>
      simp [seqStarts]
    | cons c cs =>
      simp only [seqStarts]
      by_cases h : c = p
      · subst h
        rw [if_pos rfl, ih]
        constructor
        · rintro ⟨r, rfl⟩
          exact ⟨r, rfl⟩
        · rintro ⟨r, hr⟩
          injection hr with h1 h2
          exact ⟨r, h2⟩
      · rw [if_neg h]
        constructor
        · intro hfalse
          exact absurd hfalse (by simp)
        · rintro ⟨r, hr⟩
          injection hr with h1 h2
          exact absurd h1 h

theorem containsSeq_iff (pat xs : List Char) :
    containsSeq pat xs = true ↔ ∃ l r, xs = l ++ (pat ++ r) := by
  induction xs with
  | nil =>
    simp only [containsSeq, List.isEmpty_iff]
    constructor
    · intro h
      exact ⟨[], [], by simp [h]⟩
    · rintro ⟨l, r, hr⟩
      rcases List.append_eq_nil.mp hr.symm with ⟨_, h2⟩
      rcases List.append_eq_nil.mp h2 with ⟨hp, _⟩
      exact hp
  | cons c cs ih =>
    simp only [containsSeq, Bool.or_eq_true, seqStarts_iff, ih]
    constructor
    · rintro (⟨r, hr⟩ | ⟨l, r, hr⟩)
      · exact ⟨[], r, by simp [hr]⟩
      · exact ⟨c :: l, r, by simp [hr]⟩
    · rintro ⟨l, r, hr⟩
      cases l with
      | nil =>
        left
        exact ⟨r, by simpa using hr⟩
      | cons a l =>
        right
        injection hr with h1 h2
        exact ⟨l, r, h2⟩

/-- Template is one rendered chart template; Data is its body
(chart.Template.Data, modelled as a character list). -/
structure Template where
  Data : List Char
deriving DecidableEq

/-- Chart is a loaded chart: its list of rendered templates. -/
structure Chart where
  Templates : List Template
deriving DecidableEq

/-- LoadResult is the chart loader's result triple: the chart, the
local artifact path, and an optional error — Load(chartRef) returns
(*chart.Chart, string, error). -/
structure LoadResult where
  chart : Chart
  path : String
  err : Option String
deriving DecidableEq

/-- The scheduled-workload marker text searched for by isCronJob. -/
def scheduledJobMarker : List Char := "type: ScheduledJob".data

/-- Modelled from the spec: the Cron-like Detector isCronJob (§4.2);
the executor source is missing from the snapshot, behaviour fixed by
§4.2 and TestIsCronJob. It resolves the component through the chart
loader, propagates any loader error unchanged, and otherwise reports
whether any rendered template body contains the scheduled-workload
marker text. -/
def isCronJob (load : Component → LoadResult) (c : Component) :
    Except String Bool :=
  let r := load c
  match r.err with
  | some e => Except.error e
  | none =>
      Except.ok (r.chart.Templates.any fun t =>
        containsSeq scheduledJobMarker t.Data)

/-- C4: isCronJob propagates a loader error unchanged, and on a
successful load returns ok true iff some template body contains the
marker "type: ScheduledJob" as a contiguous substring, returning
ok false otherwise. -/
theorem isCronJob_spec (load : Component → LoadResult) (c : Component) :
    (∀ e, (load c).err = some e → isCronJob load c = Except.error e) ∧
    ((load c).err = none →
      (isCronJob load c = Except.ok true ↔
        ∃ t, t ∈ (load c).chart.Templates ∧
          ∃ l r, t.Data = l ++ (scheduledJobMarker ++ r)) ∧
      (isCronJob load c = Except.ok true ∨
       isCronJob load c = Except.ok false)) := by
  constructor
  · intro e he
    simp [isCronJob, he]
  · intro he
    constructor
    · simp [isCronJob, he, List.any_eq_true, containsSeq_iff]
    · rcases Bool.eq_false_or_eq_true
        ((load c).chart.Templates.any fun t =>
          containsSeq scheduledJobMarker t.Data) with h | h
      · left
        simp [isCronJob, he, h]
      · right
        simp [isCronJob, he, h]

/-- Loader of the first TestIsCronJob rig: body "no i am no cron",
no error. -/
def rigLoad1 : Component → LoadResult := fun _ =>
  { chart := { Templates := [{ Data := "no i am no cron".data }] }
  , path := "", err := none }

/-- Loader of the second TestIsCronJob rig: body "type: ScheduledJob",
no error. -/
def rigLoad2 : Component → LoadResult := fun _ =>
  { chart := { Templates := [{ Data := "type: ScheduledJob".data }] }
  , path := "", err := none }

/-- Loader of the third TestIsCronJob rig: body "disaster" with the
loader failing with "broken". -/
def rigLoad3 : Component → LoadResult := fun _ =>
  { chart := { Templates := [{ Data := "disaster".data }] }
  , path := "", err := some "broken" }

/-- Witness for isCronJob_spec on the TestIsCronJob rigs: the loader
error "broken" is propagated, the marker body yields true, and the
non-marker body yields false. -/
theorem isCronJob_spec_witness :
    isCronJob rigLoad3 (newTestComponent "x") = Except.error "broken" ∧
    isCronJob rigLoad2 (newTestComponent "x") = Except.ok true ∧
    isCronJob rigLoad1 (newTestComponent "x") = Except.ok false :=
  ⟨(isCronJob_spec rigLoad3 (newTestComponent "x")).1 "broken" rfl,
   ((isCronJob_spec rigLoad2 (newTestComponent "x")).2 rfl).1.mpr
      ⟨{ Data := "type: ScheduledJob".data }, by decide,
        [], [], by decide⟩,
   rfl⟩

/-! Kubernetes secret store (secrets.go). -/

/-- KErr is the Kubernetes backend error taxonomy as consumed by
secrets.go: NotFound, AlreadyExists, or any other backend error. -/
inductive KErr where
  | notFound
  | alreadyExists
  | other : String → KErr
deriving DecidableEq

/-- KubeState is the backend state relevant to secrets.go: the existing
namespaces and the secret objects, keyed by (namespace, name). -/
structure KubeState where
  namespaces : List String
  secretStore : List ((String × String) × SecretValues)
deriving DecidableEq

/-- lookupKey finds the secret object stored under a key. -/
def lookupKey :
    List ((String × String) × SecretValues) → String × String →
    Option SecretValues
  | [], _ => none
  | (k, v) :: rest, key => if k = key then some v else lookupKey rest key

/-- removeKey removes every entry stored under a key. -/
def removeKey :
    List ((String × String) × SecretValues) → String × String →
    List ((String × String) × SecretValues)
  | [], _ => []
  | (k, v) :: rest, key =>
      if k = key then removeKey rest key
      else (k, v) :: removeKey rest key

/-- nsCreate is the backend Namespaces().Create call: it fails with
AlreadyExists when the namespace already exists. -/
def nsCreate (st : KubeState) (ns : String) : Option KErr × KubeState :=
  if ns ∈ st.namespaces then (some KErr.alreadyExists, st)
  else (none, { st with namespaces := ns :: st.namespaces })

/-- secretGet is the backend Secrets(namespace).Get call: it fails with
NotFound when no secret object is stored under the name. -/
def secretGet (st : KubeState) (ns name : String) :
    Except KErr SecretValues :=
  match lookupKey st.secretStore (ns, name) with
  | some v => Except.ok v
  | none => Except.error KErr.notFound

/-- secretCreate is the backend Secrets(namespace).Create call: it
fails with AlreadyExists when the object already exists. -/
def secretCreate (st : KubeState) (ns name : String)
    (vals : SecretValues) : Option KErr × KubeState :=
  if (lookupKey st.secretStore (ns, name)).isSome then
    (some KErr.alreadyExists, st)
  else
    (none,
     { st with secretStore := ((ns, name), vals) :: st.secretStore })

/-- backendSecretDelete is the backend Secrets(namespace).Delete call:
it fails with NotFound when the object is absent. -/
def backendSecretDelete (st : KubeState) (ns name : String) :
    Option KErr × KubeState :=
  if (lookupKey st.secretStore (ns, name)).isSome then
    (none, { st with secretStore := removeKey st.secretStore (ns, name) })
  else (some KErr.notFound, st)

/-- Embeds the error handling of kubeSecretsProvider.Read (secrets.go
lines 54-81), branched on the backend Get result: NotFound yields an
empty mapping with no error, any other error is returned unchanged with
a nil mapping, and on success every key of the stored object is copied
into the result. -/
def kubeReadResult (getResult : Except KErr SecretValues) :
    Option SecretValues × Option KErr :=
  match getResult with
  | Except.error e =>
      if e = KErr.notFound then (some [], none) else (none, some e)
  | Except.ok data => (some data, none)

/-- Embeds kubeSecretsProvider.Read (secrets.go lines 54-81) against
the backend state; the secretNames argument is ignored, as in the
source. -/
def kubeRead (st : KubeState) (componentName ns : String)
    (secretNames : List String) : Option SecretValues × Option KErr :=
  kubeReadResult (secretGet st ns componentName)

/-- Embeds kubeSecretsProvider.ensureNamespace (secrets.go lines
139-153): triggers namespace creation and filters the error — only an
already-exists error is swallowed. -/
def ensureNamespace (st : KubeState) (ns : String) :
    Option KErr × KubeState :=
  let (err, st1) := nsCreate st ns
  match err with
  | some e =>
      if e = KErr.alreadyExists then (none, st1) else (some e, st1)
  | none => (none, st1)

/-- Embeds kubeSecretsProvider.Write (secrets.go lines 83-114): ensure
the namespace exists, then create the secret object named after the
component, propagating any error. -/
def kubeWrite (st : KubeState) (componentName ns : String)
    (secrets : SecretValues) : Option KErr × KubeState :=
  let (err, st1) := ensureNamespace st ns
  match err with
  | some e => (some e, st1)
  | none => secretCreate st1 ns componentName secrets

/-- Embeds the error handling of kubeSecretsProvider.Delete (secrets.go
lines 116-136), branched on the backend Delete result: NotFound is
absorbed as success, any other error is returned unchanged. -/
def kubeDeleteResult (delResult : Option KErr) : Option KErr :=
  match delResult with
  | some e => if e = KErr.notFound then none else some e
  | none => none

/-- Embeds kubeSecretsProvider.Delete (secrets.go lines 116-136)
against the backend state. -/
def kubeDelete (st : KubeState) (componentName ns : String) :
    Option KErr × KubeState :=
  let (err, st1) := backendSecretDelete st ns componentName
  (kubeDeleteResult err, st1)

theorem ensureNamespace_err_none (st : KubeState) (ns : String) :
    (ensureNamespace st ns).1 = none ∧
    ns ∈ ((ensureNamespace st ns).2).namespaces := by
  by_cases h : ns ∈ st.namespaces <;>
    simp [ensureNamespace, nsCreate, h]

theorem ensureNamespace_secretStore (st : KubeState) (ns : String) :
    ((ensureNamespace st ns).2).secretStore = st.secretStore := by
  by_cases h : ns ∈ st.namespaces <;>
    simp [ensureNamespace, nsCreate, h]

theorem lookupKey_removeKey
    (l : List ((String × String) × SecretValues))
    (key : String × String) :
    lookupKey (removeKey l key) key = none := by
  induction l with
  | nil => rfl
  | cons kv rest ih =>
    obtain ⟨k, v⟩ := kv
    by_cases h : k = key
    · simp [removeKey, h, ih]
    · simp [removeKey, lookupKey, h, ih]

/-- C6: when the backing secret object does not exist the backend
reports NotFound and Read returns an empty mapping with no error; any
other backend error is returned unchanged with a nil mapping. -/
theorem kubeRead_spec (st : KubeState) (componentName ns : String)
    (secretNames : List String) :
    (lookupKey st.secretStore (ns, componentName) = none →
      kubeRead st componentName ns secretNames = (some [], none)) ∧
    (∀ e, e ≠ KErr.notFound →
      kubeReadResult (Except.error e) = (none, some e)) := by
  constructor
  · intro h
    simp [kubeRead, kubeReadResult, secretGet, h]
  · intro e he
    simp [kubeReadResult, he]

/-- Witness for kubeRead_spec: on an empty store Read returns the empty
mapping without error, and a non-NotFound backend error passes through
unchanged. -/
theorem kubeRead_spec_witness :
    kubeRead { namespaces := [], secretStore := [] } "cmp" "ns" [] =
      (some [], none) ∧
    kubeReadResult (Except.error (KErr.other "boom")) =
      (none, some (KErr.other "boom")) :=
  ⟨(kubeRead_spec { namespaces := [], secretStore := [] }
      "cmp" "ns" []).1 rfl,
   (kubeRead_spec { namespaces := [], secretStore := [] }
      "cmp" "ns" []).2 (KErr.other "boom") (by decide)⟩

/-- C7: Delete is idempotent — when the entry is absent the backend
reports NotFound and Delete returns success with the state unchanged;
any other backend error is returned unchanged. -/
theorem kubeDelete_spec (st : KubeState) (componentName ns : String) :
    (lookupKey st.secretStore (ns, componentName) = none →
      kubeDelete st componentName ns = (none, st)) ∧
    (∀ e, e ≠ KErr.notFound → kubeDeleteResult (some e) = some e) := by
  constructor
  · intro h
    simp [kubeDelete, backendSecretDelete, kubeDeleteResult, h]
  · intro e he
    simp [kubeDeleteResult, he]

/-- Witness for kubeDelete_spec: deleting from an empty store succeeds,
and a non-NotFound backend error passes through unchanged. -/
theorem kubeDelete_spec_witness :
    kubeDelete { namespaces := [], secretStore := [] } "cmp" "ns" =
      (none, { namespaces := [], secretStore := [] }) ∧
    kubeDeleteResult (some (KErr.other "boom")) =
      some (KErr.other "boom") :=
  ⟨(kubeDelete_spec { namespaces := [], secretStore := [] }
      "cmp" "ns").1 rfl,
   (kubeDelete_spec { namespaces := [], secretStore := [] }
      "cmp" "ns").2 (KErr.other "boom") (by decide)⟩

/-- C8: Write ensures the target namespace exists before the secret
object is created — the secret creation runs on the post-ensure state,
whose namespaces contain the target — and an AlreadyExists result from
namespace creation is treated as success rather than a failure of the
write. -/
theorem kubeWrite_spec (st : KubeState) (componentName ns : String)
    (vals : SecretValues) :
    (ns ∈ ((ensureNamespace st ns).2).namespaces ∧
      (ensureNamespace st ns).1 = none) ∧
    kubeWrite st componentName ns vals =
      secretCreate (ensureNamespace st ns).2 ns componentName vals ∧
    (ns ∈ st.namespaces →
      (nsCreate st ns).1 = some KErr.alreadyExists ∧
      ensureNamespace st ns = (none, st)) := by
  refine ⟨⟨(ensureNamespace_err_none st ns).2,
          (ensureNamespace_err_none st ns).1⟩, ?_, ?_⟩
  · by_cases h : ns ∈ st.namespaces <;>
      simp [kubeWrite, ensureNamespace, nsCreate, h]
  · intro h
    simp [ensureNamespace, nsCreate, h]

/-- The backend state of the kubeWrite witness: the namespace already
exists and the store is empty. -/
def stW : KubeState := { namespaces := ["ns"], secretStore := [] }

/-- Witness for kubeWrite_spec: with the namespace already present the
creation attempt reports AlreadyExists, ensureNamespace succeeds, and
the write reduces to the secret creation on the ensured state. -/
theorem kubeWrite_spec_witness :
    (("ns" ∈ ((ensureNamespace stW "ns").2).namespaces ∧
      (ensureNamespace stW "ns").1 = none) ∧
     kubeWrite stW "cmp" "ns" [("k", "v")] =
       secretCreate (ensureNamespace stW "ns").2 "ns" "cmp"
         [("k", "v")]) ∧
    (nsCreate stW "ns").1 = some KErr.alreadyExists ∧
    ensureNamespace stW "ns" = (none, stW) :=
  ⟨⟨(kubeWrite_spec stW "cmp" "ns" [("k", "v")]).1,
    (kubeWrite_spec stW "cmp" "ns" [("k", "v")]).2.1⟩,
   (kubeWrite_spec stW "cmp" "ns" [("k", "v")]).2.2 (by decide)⟩

/-- C10: the Kubernetes Read is independent of the secretNames
argument — for a fixed state and (componentName, namespace) any two
calls return the same mapping and error — and on success the result
contains every key of the stored secret object, not only the requested
names. -/
theorem kubeRead_ignores_secretNames (st : KubeState)
    (componentName ns : String) (names1 names2 : List String) :
    kubeRead st componentName ns names1 =
      kubeRead st componentName ns names2 ∧
    (∀ data,
      lookupKey st.secretStore (ns, componentName) = some data →
      kubeRead st componentName ns names1 = (some data, none)) := by
  constructor
  · rfl
  · intro data h
    simp [kubeRead, kubeReadResult, secretGet, h]

/-- The backend state of the kubeRead independence witness: one secret
object with two keys. -/
def stR : KubeState :=
  { namespaces := ["ns"]
  , secretStore := [(("ns", "cmp"), [("k1", "v1"), ("k2", "v2")])] }

/-- Witness for kubeRead_ignores_secretNames: requesting only k1 and
requesting nothing return the same result, which contains both stored
keys. -/
theorem kubeRead_ignores_secretNames_witness :
    kubeRead stR "cmp" "ns" ["k1"] = kubeRead stR "cmp" "ns" [] ∧
    kubeRead stR "cmp" "ns" ["k1"] =
      (some [("k1", "v1"), ("k2", "v2")], none) :=
  ⟨(kubeRead_ignores_secretNames stR "cmp" "ns" ["k1"] []).1,
   (kubeRead_ignores_secretNames stR "cmp" "ns" ["k1"] []).2
      [("k1", "v1"), ("k2", "v2")] rfl⟩

/-! UpdateComponent (§4.4). -/

/-- Event records the side-effecting backend calls an executor
operation issues, in order. -/
inductive Event where
  | secretDeleteEv : String → String → Event
  | secretWriteEv : String → String → SecretValues → Event
  | releaseUpdateEv : String → String → Event
deriving DecidableEq

/-- chartRef resolves the package reference "<repository>/<chart>"; the
repository comes from the metadata recorded in the component's
configuration. -/
def chartRef (repo : String) (c : Component) : String :=
  repo ++ "/" ++ (match c.Release with
    | some r => r.Chart
    | none => "")

/-- Modelled from the spec: UpdateComponent (§4.4) — the executor
source is missing from the snapshot; behaviour fixed by §4.4 and
TestExecutorUpdate. It loads the package through the chart loader,
rewrites the component's SecretValues in the secret store (realised
against the Kubernetes store as a delete of the prior object followed
by a write, the sequence TestExecutorUpdate's secret mock expects),
then issues the release update keyed by c.Name with the resolved
artifact path. -/
def updateComponent (load : String → LoadResult) (repo : String)
    (st : KubeState) (c : Component) :
    Option KErr × KubeState × List Event :=
  let r := load (chartRef repo c)
  match r.err with
  | some e => (some (KErr.other e), st, [])
  | none =>
    let (derr, st1) := kubeDelete st c.Name c.Namespace
    match derr with
    | some e =>
        (some e, st1, [Event.secretDeleteEv c.Name c.Namespace])
    | none =>
      let (werr, st2) := kubeWrite st1 c.Name c.Namespace c.SecretValues
      match werr with
      | some e =>
          (some e, st2,
           [Event.secretDeleteEv c.Name c.Namespace,
            Event.secretWriteEv c.Name c.Namespace c.SecretValues])
      | none =>
          (none, st2,
           [Event.secretDeleteEv c.Name c.Namespace,
            Event.secretWriteEv c.Name c.Namespace c.SecretValues,
            Event.releaseUpdateEv c.Name r.path])

/-- C5: when the store already holds prior secret values under the
component's (name, namespace), UpdateComponent succeeds, the secret
write overwrites the prior values with the component's SecretValues,
and the write event precedes the release-update event keyed by the
component's name. -/
theorem updateComponent_overwrites (load : String → LoadResult)
    (repo : String) (st : KubeState) (c : Component)
    (prior : SecretValues)
    (hprior :
      lookupKey st.secretStore (c.Namespace, c.Name) = some prior)
    (hload : (load (chartRef repo c)).err = none) :
    (updateComponent load repo st c).1 = none ∧
    lookupKey (updateComponent load repo st c).2.1.secretStore
      (c.Namespace, c.Name) = some c.SecretValues ∧
    (updateComponent load repo st c).2.2 =
      [Event.secretDeleteEv c.Name c.Namespace,
       Event.secretWriteEv c.Name c.Namespace c.SecretValues,
       Event.releaseUpdateEv c.Name (load (chartRef repo c)).path] := by
  have hns := ensureNamespace_err_none
    { st with secretStore := removeKey st.secretStore (c.Namespace, c.Name) }
    c.Namespace
  have hss := ensureNamespace_secretStore
    { st with secretStore := removeKey st.secretStore (c.Namespace, c.Name) }
    c.Namespace
  by_cases h : c.Namespace ∈ st.namespaces <;>
    simp [updateComponent, hload, kubeDelete, backendSecretDelete,
      kubeDeleteResult, kubeWrite, ensureNamespace, nsCreate,
      secretCreate, hprior, h, lookupKey_removeKey, lookupKey]

/-- The loader of the updateComponent witness: always succeeds with the
TestExecutorUpdate chart path. -/
def loadU : String → LoadResult := fun _ =>
  { chart := { Templates := [] }
  , path := "/opt/store/whatever/path/", err := none }

/-- The backend state of the updateComponent witness: prior secret
values already stored for component y. -/
def stU : KubeState :=
  { namespaces := ["myNameSpace"]
  , secretStore := [(("myNameSpace", "y"), [("old", "val")])] }

/-- Witness for updateComponent_overwrites on the TestExecutorUpdate
data: updating component y overwrites its stored secret values and the
write event precedes the release update. -/
theorem updateComponent_overwrites_witness :
    (updateComponent loadU "repo" stU (newTestComponent "y")).1 =
      none ∧
    lookupKey
      (updateComponent loadU "repo" stU
        (newTestComponent "y")).2.1.secretStore
      ("myNameSpace", "y") = some (newTestComponent "y").SecretValues ∧
    (updateComponent loadU "repo" stU (newTestComponent "y")).2.2 =
      [Event.secretDeleteEv "y" "myNameSpace",
       Event.secretWriteEv "y" "myNameSpace"
         (newTestComponent "y").SecretValues,
       Event.releaseUpdateEv "y" "/opt/store/whatever/path/"] :=
  updateComponent_overwrites loadU "repo" stU (newTestComponent "y")
    [("old", "val")] rfl rfl

/-! Environment-variable secret reader (secrets.go). -/

/-- Embeds the variable-name transformation of environmentSecrets.Read
(secrets.go line 159): strings.Replace(strings.ToUpper(key), "-", "_",
-1) — every character upper-cased and then every dash replaced by an
underscore. -/
def envName (key : String) : String :=
  String.mk (key.data.map fun ch =>
    let u := ch.toUpper
    if u = '-' then '_' else u)

/-- Embeds environmentSecrets.Read (secrets.go lines 156-169): each
requested secret name is bound to the value of the environment variable
envName key — empty when the variable is unset, since Getenv returns
the empty string — and no error is ever returned; componentName and
namespace are ignored. -/
def envRead (getenv : String → String) (secretNames : List String) :
    SecretValues × Option KErr :=
  (secretNames.map (fun key => (key, getenv (envName key))), none)

/-- lookupStr finds the first value bound to a name in a SecretValues
association list. -/
def lookupStr : SecretValues → String → Option String
  | [], _ => none
  | (k, v) :: rest, key => if k = key then some v else lookupStr rest key

theorem lookupStr_map_getenv (getenv : String → String)
    (names : List String) (key : String) (hmem : key ∈ names) :
    lookupStr (names.map fun k => (k, getenv (envName k))) key =
      some (getenv (envName key)) := by
  induction names with
  | nil => cases hmem
  | cons a rest ih =>
    rcases List.mem_cons.mp hmem with h | h
    · subst h
      simp [lookupStr]
    · by_cases hak : a = key
      · subst hak
        simp [lookupStr]
      · simp [lookupStr, hak, ih h]

/-- C9: the environment reader binds every requested name to the value
of the environment variable obtained by upper-casing the name and
replacing every dash with an underscore; an unset or empty variable
yields an empty entry, and no error is ever returned. -/
theorem envRead_spec (getenv : String → String)
    (secretNames : List String) (key : String)
    (hmem : key ∈ secretNames) :
    lookupStr (envRead getenv secretNames).1 key =
      some (getenv (envName key)) ∧
    (envRead getenv secretNames).2 = none ∧
    (getenv (envName key) = "" →
      lookupStr (envRead getenv secretNames).1 key = some "") := by
  refine ⟨lookupStr_map_getenv getenv secretNames key hmem, rfl, ?_⟩
  intro hempty
  rw [show (envRead getenv secretNames).1 =
        secretNames.map fun k => (k, getenv (envName k)) from rfl,
      lookupStr_map_getenv getenv secretNames key hmem, hempty]

/-- The environment of the envRead witness: only TEST_SECRET_1 is
set. -/
def getenvTest : String → String := fun v =>
  if v = "TEST_SECRET_1" then "secret value 1" else ""

/-- Witness for envRead_spec: test-secret-1 resolves through
TEST_SECRET_1, the unset test-secret-2 yields an empty entry without
error, and the name transformation upper-cases and replaces dashes. -/
theorem envRead_spec_witness :
    envName "test-secret-1" = "TEST_SECRET_1" ∧
    lookupStr
      (envRead getenvTest ["test-secret-1", "test-secret-2"]).1
      "test-secret-1" = some "secret value 1" ∧
    (envRead getenvTest ["test-secret-1", "test-secret-2"]).2 = none ∧
    lookupStr
      (envRead getenvTest ["test-secret-1", "test-secret-2"]).1
      "test-secret-2" = some "" :=
  ⟨by decide,
   by
     have h := (envRead_spec getenvTest
       ["test-secret-1", "test-secret-2"] "test-secret-1"
       (by decide)).1
     simpa using h,
   (envRead_spec getenvTest ["test-secret-1", "test-secret-2"]
     "test-secret-1" (by decide)).2.1,
   (envRead_spec getenvTest ["test-secret-1", "test-secret-2"]
     "test-secret-2" (by decide)).2.2 (by decide)⟩

end Landscaper
